import Mathlib

/-!
Verification of the admin-backend Lambda (src/admin/admin-backend/index.mjs)
of the stablecoin-keeper repository.

The JavaScript source is shallowly embedded as executable Lean functions.
External library builtins are passed as function parameters rather than
reimplemented, so every theorem holds for all behaviours of the builtin:
  - hash    : String -> String               models crypto sha256 hex digest
  - recover : String -> String -> Except ..  models ethers.utils.verifyMessage
              (Except.error for a thrown exception)
  - b64     : String -> String               models Buffer base64 encoding
  - pf      : JVal -> Option Rat             models JS parseFloat (none = NaN)
  - pd      : JVal -> Option Int             models new Date(v).getTime in ms
              (none = Invalid Date, i.e. a NaN time value)
DynamoDB is modelled as an explicit association-list state together with
failure flags for its get / put / delete operations; the DynamoDB-managed
ttl attribute on token and nonce records prunes records outside every code
path in scope and is therefore not part of the record model.  Campaign
request bodies are modelled with Option-valued fields (none = the key is
absent, which the source comparison operators treat like undefined).
-/

/-- Rejection reasons returned by verifySignature in the source. -/
inductive Reason
  | signature_already_used
  | invalid_signature
  | address_not_authorized
  | verification_error
deriving DecidableEq, Repr

/-- Result object of verifySignature: the valid flag, the optional reason
and the optional error detail string. -/
structure VerifyResult where
  valid : Bool
  reason : Option Reason
  error : Option String
deriving DecidableEq, Repr

/-- State of the NONCE partition of the DynamoDB table: the consumed
nonces with the lowercased address that consumed them, plus flags that
make the get or put operation of the store raise. -/
structure NonceDb where
  nonces : List (String × String)
  getFails : Bool
  putFails : Bool
deriving DecidableEq, Repr

/-- JavaScript toLowerCase, modelled per character over the string data
(the source only lowercases ASCII hex account addresses). -/
def jsToLower (s : String) : String := ⟨s.data.map Char.toLower⟩

/-- generateNonce from the source: sha256 hex digest of the template
string message ++ ":" ++ signature. -/
def generateNonce (hash : String → String) (message signature : String) : String :=
  hash (message ++ ":" ++ signature)

/-- isNonceUsed from the source: a DynamoDB GetCommand on key NONCE#nonce;
truthiness of result.Item.  A store failure is rethrown as an error. -/
def isNonceUsed (db : NonceDb) (nonce : String) : Except String Bool :=
  if db.getFails then Except.error "DynamoDB error checking nonce"
  else Except.ok (db.nonces.any (fun p => p.1 == nonce))

/-- markNonceUsed from the source: a DynamoDB PutCommand inserting the
nonce record with the lowercased address.  A store failure is rethrown. -/
def markNonceUsed (db : NonceDb) (nonce address : String) : Except String NonceDb :=
  if db.putFails then Except.error "DynamoDB error marking nonce"
  else Except.ok { db with nonces := (nonce, jsToLower address) :: db.nonces }

/-- verifySignature from the source, lines 156-198.  The outer try wraps
the whole body, so a throwing recovery lands in the verification_error
branch; the nonce-check error is caught separately and rewrapped; the
markNonceUsed error is swallowed (warning only) and authentication still
succeeds with the store state unchanged. -/
def verifySignature (hash : String → String)
    (recover : String → String → Except String String)
    (allow : List String) (db : NonceDb) (address message signature : String) :
    VerifyResult × NonceDb :=
  match isNonceUsed db (generateNonce hash message signature) with
  | Except.error e =>
      ({ valid := false, reason := some Reason.verification_error,
         error := some ("Database error: " ++ e) }, db)
  | Except.ok true =>
      ({ valid := false, reason := some Reason.signature_already_used,
         error := none }, db)
  | Except.ok false =>
      match recover message signature with
      | Except.error e =>
          ({ valid := false, reason := some Reason.verification_error,
             error := some e }, db)
      | Except.ok recovered =>
          if jsToLower recovered ≠ jsToLower address then
            ({ valid := false, reason := some Reason.invalid_signature,
               error := none }, db)
          else if allow.contains (jsToLower address) = false then
            ({ valid := false, reason := some Reason.address_not_authorized,
               error := none }, db)
          else
            match markNonceUsed db (generateNonce hash message signature) address with
            | Except.error _ => ({ valid := true, reason := none, error := none }, db)
            | Except.ok db2 => ({ valid := true, reason := none, error := none }, db2)

/-- A record of the TOKEN partition of the DynamoDB table: the bound
address and the issuance timestamp in milliseconds. -/
structure TokenItem where
  address : String
  timestamp : Int
deriving DecidableEq, Repr

/-- State of the TOKEN partition of the DynamoDB table together with
failure flags for its get, delete and put operations. -/
structure TokenDb where
  tokens : List (String × TokenItem)
  getFails : Bool
  delFails : Bool
  putFails : Bool
deriving DecidableEq, Repr

/-- DynamoDB GetCommand on key TOKEN#token: the first record under that
key (keys are unique in the table, insertion shadows). -/
def lookupToken (l : List (String × TokenItem)) (token : String) : Option TokenItem :=
  (l.find? (fun p => p.1 == token)).map (fun p => p.2)

/-- DynamoDB DeleteCommand on key TOKEN#token. -/
def removeToken (l : List (String × TokenItem)) (token : String) :
    List (String × TokenItem) :=
  l.filter (fun p => p.1 != token)

/-- verifyToken from the source, lines 74-110: the whole body is wrapped
in a try whose catch returns null, so a failing get, and a failing delete
on the lazy-expiry path, both yield null with the store unchanged. -/
def verifyToken (db : TokenDb) (now : Int) (token : String) :
    Option String × TokenDb :=
  if db.getFails then (none, db)
  else
    match lookupToken db.tokens token with
    | none => (none, db)
    | some item =>
      if now - item.timestamp > 86400000 then
        if db.delFails then (none, db)
        else (none, { db with tokens := removeToken db.tokens token })
      else (some (jsToLower item.address), db)

/-- generateToken from the source, lines 46-71: the token string is the
base64 encoding of address:timestamp:random, the record binds the
lowercased address and the timestamp; a store failure is rethrown as a
DynamoDB error. -/
def generateToken (b64 : String → String) (tdb : TokenDb) (now : Int)
    (rand address : String) : Except String (String × TokenDb) :=
  if tdb.putFails then Except.error "DynamoDB error storing token"
  else Except.ok (b64 (address ++ ":" ++ toString now ++ ":" ++ rand),
    { tdb with tokens := (b64 (address ++ ":" ++ toString now ++ ":" ++ rand),
        { address := jsToLower address, timestamp := now }) :: tdb.tokens })

/-- getAuthFromRequest from the source: the Authorization header must be
present and start with the Bearer scheme (startsWith), and the token is
the rest of the header (substring from index 7), modelled over the
character data of the string. -/
def getAuthFromRequest (authHeader : Option String) : Option String :=
  match authHeader with
  | none => none
  | some h =>
      if h.data.take 7 = "Bearer ".data then some ⟨h.data.drop 7⟩ else none

/-- isAuthenticated from the source: extract the bearer token and check
that verifyToken binds it to an address. -/
def isAuthenticated (db : TokenDb) (now : Int) (authHeader : Option String) :
    Bool × TokenDb :=
  match getAuthFromRequest authHeader with
  | none => (false, db)
  | some t =>
      match verifyToken db now t with
      | (r, db2) => (r.isSome, db2)

/-- Response bodies the embedded handler slices can produce. -/
inductive RespBody
  | authOk (token address : String)
  | errMsg (m : String)
deriving DecidableEq, Repr

/-- HTTP response: status code and JSON body. -/
structure HttpResp where
  statusCode : Nat
  body : RespBody
deriving DecidableEq, Repr

/-- The authentication-failure message selection of the auth endpoint,
source lines 249-258. -/
def authErrorMessage (r : VerifyResult) : String :=
  match r.reason with
  | some Reason.signature_already_used =>
      "This signature has already been used. Please sign a new message."
  | some Reason.invalid_signature =>
      "Invalid signature. Please try connecting again."
  | some Reason.address_not_authorized =>
      "Address not authorized. Please contact administrator."
  | some Reason.verification_error =>
      "Verification error: " ++ r.error.getD ""
  | none => "Authentication failed"

/-- The core of the POST /auth endpoint after body parsing and the
missing-field check, source lines 246-283: verify the signature, reject
401 with the reason-specific message on failure, otherwise issue a token
and answer 200; a DynamoDB failure from generateToken is caught and
answered 500 with the sanitized database message. -/
def authCore (hash : String → String)
    (recover : String → String → Except String String) (allow : List String)
    (ndb : NonceDb) (tdb : TokenDb) (b64 : String → String) (now : Int)
    (rand address message signature : String) :
    HttpResp × NonceDb × TokenDb :=
  match verifySignature hash recover allow ndb address message signature with
  | (vr, ndb2) =>
    if vr.valid then
      match generateToken b64 tdb now rand address with
      | Except.error _ =>
          ({ statusCode := 500, body := RespBody.errMsg
              "Database error. Please check Lambda IAM permissions and DynamoDB configuration." },
           ndb2, tdb)
      | Except.ok p =>
          ({ statusCode := 200, body := RespBody.authOk p.1 address }, ndb2, p.2)
    else
      ({ statusCode := 401, body := RespBody.errMsg (authErrorMessage vr) }, ndb2, tdb)

/-- The authorization gate run before every non-auth endpoint, source
lines 286-290: when isAuthenticated is false the request is answered with
the uniform 401 unauthorized response, otherwise the gate passes (none). -/
def protectedGate (db : TokenDb) (now : Int) (authHeader : Option String) :
    Option HttpResp × TokenDb :=
  match isAuthenticated db now authHeader with
  | (true, db2) => (none, db2)
  | (false, db2) =>
      (some { statusCode := 401,
              body := RespBody.errMsg "Unauthorized. Please connect your wallet." }, db2)

/-- A JavaScript value as it can appear in a campaign field: a string or
a number, where the number none stands for NaN. -/
inductive JVal
  | str (s : String)
  | num (q : Option Rat)
deriving DecidableEq, Repr

/-- A stored campaign record as built by validateCampaign: id is a
string, total_amount is the parseFloat result (a number, possibly NaN),
start_date and end_date are stored verbatim from the input. -/
structure Campaign where
  id : String
  token_address : JVal
  total_amount : Option Rat
  start_date : JVal
  end_date : JVal
  status : String
deriving DecidableEq, Repr

/-- A request body for create or update: each field is either absent
(none, treated like undefined by the strict comparisons of the source)
or carries a JavaScript value. -/
structure CampaignBody where
  id : Option String
  token_address : Option JVal
  total_amount : Option JVal
  start_date : Option JVal
  end_date : Option JVal
  status : Option String
deriving DecidableEq, Repr

/-- JavaScript strict inequality on two numbers: NaN is unequal to
everything, including itself. -/
def jnumNeq (a b : Option Rat) : Bool :=
  match a, b with
  | some x, some y => decide (x ≠ y)
  | _, _ => true

/-- JavaScript strict inequality between an optional body field and a
stored value: an absent field (undefined) and a cross-type comparison
are always unequal. -/
def jneqJ (b : Option JVal) (v : JVal) : Bool :=
  match b, v with
  | some (JVal.str s), JVal.str u => decide (s ≠ u)
  | some (JVal.num n), JVal.num m => jnumNeq n m
  | _, _ => true

/-- JavaScript strict inequality between an optional body field and a
stored number (the stored total_amount is always a number). -/
def jneqNum (b : Option JVal) (m : Option Rat) : Bool :=
  match b with
  | some (JVal.num n) => jnumNeq n m
  | _ => true

/-- The hasOtherChanges test of updateCampaign, source lines 504-508:
strict inequality of each of the four non-status fields of the body
against the stored record. -/
def hasOtherChanges (data : CampaignBody) (ex : Campaign) : Bool :=
  jneqJ data.token_address ex.token_address ||
  jneqNum data.total_amount ex.total_amount ||
  jneqJ data.start_date ex.start_date ||
  jneqJ data.end_date ex.end_date

/-- setUTCHours(0,0,0,0) on a millisecond timestamp: truncate to the UTC
calendar day. -/
def floorDay (d : Int) : Int := d - d % 86400000

/-- The day-truncated comparison startDate less-or-equal today used by
the source: an Invalid Date (NaN) compares false. -/
def startedB (pd : JVal → Option Int) (now : Int) (sd : JVal) : Bool :=
  match pd sd with
  | none => false
  | some d => decide (floorDay d ≤ floorDay now)

/-- canEditCampaign from the source, lines 457-466. -/
def canEditCampaign (pd : JVal → Option Int) (now : Int) (c : Campaign) : Bool :=
  if c.status = "completed" then false
  else if startedB pd now c.start_date then false
  else true

/-- The status defaulting of validateCampaign: data.status or the string
active, where the empty string is falsy in JavaScript. -/
def statusOrActive (s : Option String) : String :=
  match s with
  | none => "active"
  | some s => if s = "" then "active" else s

/-- validateCampaign from the source, lines 429-455: presence of the five
required fields in order, both dates must parse and end_date must be
strictly after start_date, and parseFloat(total_amount) less-or-equal 0
throws.  A NaN parseFloat result fails that comparison and is therefore
accepted and stored. -/
def validateCampaign (pf : JVal → Option Rat) (pd : JVal → Option Int)
    (data : CampaignBody) : Except String Campaign :=
  match data.id with
  | none => Except.error "Missing required field: id"
  | some i =>
  match data.token_address with
  | none => Except.error "Missing required field: token_address"
  | some ta =>
  match data.total_amount with
  | none => Except.error "Missing required field: total_amount"
  | some amt =>
  match data.start_date with
  | none => Except.error "Missing required field: start_date"
  | some sd =>
  match data.end_date with
  | none => Except.error "Missing required field: end_date"
  | some ed =>
  match pd sd, pd ed with
  | some s, some e =>
    if e ≤ s then Except.error "end_date must be after start_date and valid dates"
    else
      match pf amt with
      | some q =>
        if q ≤ 0 then Except.error "total_amount must be positive"
        else Except.ok { id := i, token_address := ta, total_amount := some q,
                         start_date := sd, end_date := ed,
                         status := statusOrActive data.status }
      | none =>
        Except.ok { id := i, token_address := ta, total_amount := none,
                    start_date := sd, end_date := ed,
                    status := statusOrActive data.status }
  | _, _ => Except.error "end_date must be after start_date and valid dates"

/-- createCampaign from the source, lines 479-487: duplicate-id check
against the collection, then validate and append. -/
def createCampaign (pf : JVal → Option Rat) (pd : JVal → Option Int)
    (data : CampaignBody) (campaigns : List Campaign) :
    Except String (Campaign × List Campaign) :=
  if campaigns.any (fun c => data.id = some c.id) then
    Except.error "Campaign ID already exists"
  else
    match validateCampaign pf pd data with
    | Except.error e => Except.error e
    | Except.ok c => Except.ok (c, campaigns ++ [c])

/-- The per-record body of updateCampaign, source lines 494-525, applied
to the stored record whose id matched: the isActive test, the status-only
branch with its hasOtherChanges rejection, and the pre-start full edit
through validateCampaign with the id forced to the path id. -/
def updateOne (pf : JVal → Option Rat) (pd : JVal → Option Int) (now : Int)
    (data : CampaignBody) (ex : Campaign) : Except String Campaign :=
  if startedB pd now ex.start_date = true ∧ ex.status ≠ "completed" then
    match data.status with
    | some s =>
      if s = "active" ∨ s = "paused" ∨ s = "completed" then
        if hasOtherChanges data ex then
          Except.error "Cannot change campaign fields for active campaigns. Only status can be changed."
        else Except.ok { ex with status := s }
      else Except.error "Can only change status for active campaigns. Use pause/resume."
    | none => Except.error "Can only change status for active campaigns. Use pause/resume."
  else if canEditCampaign pd now ex = false then
    Except.error "Campaign cannot be edited (already started or completed)"
  else validateCampaign pf pd { data with id := some ex.id }

/-- Outcome of updateCampaign: null for an unknown id, a thrown error, or
the updated record together with the mutated collection. -/
inductive UpdateResult
  | notFound
  | err (e : String)
  | ok (c : Campaign) (campaigns : List Campaign)
deriving DecidableEq, Repr

/-- updateCampaign from the source, lines 489-526: findIndex on the id
(first match), then the per-record update in place; a throw leaves the
collection unsaved. -/
def updateCampaign (pf : JVal → Option Rat) (pd : JVal → Option Int) (now : Int)
    (cid : String) (data : CampaignBody) :
    List Campaign → UpdateResult
  | [] => UpdateResult.notFound
  | c :: rest =>
    if c.id = cid then
      match updateOne pf pd now data c with
      | Except.error e => UpdateResult.err e
      | Except.ok c2 => UpdateResult.ok c2 (c2 :: rest)
    else
      match updateCampaign pf pd now cid data rest with
      | UpdateResult.notFound => UpdateResult.notFound
      | UpdateResult.err e => UpdateResult.err e
      | UpdateResult.ok c2 rest2 => UpdateResult.ok c2 (c :: rest2)

/-! ## Helper lemmas about verifySignature -/

/-- A successful verification with a working nonce put records the nonce
derived from the message and signature in the store. -/
theorem verifySignature_valid_state
    (hash : String → String) (recover : String → String → Except String String)
    (allow : List String) (db : NonceDb) (a m s : String) (r : VerifyResult)
    (db' : NonceDb)
    (h1 : verifySignature hash recover allow db a m s = (r, db'))
    (h2 : r.valid = true) (h4 : db.putFails = false) :
    db' = { db with nonces := (generateNonce hash m s, jsToLower a) :: db.nonces } := by
  unfold verifySignature at h1
  split at h1
  · injection h1 with hr hdb; subst hr; simp at h2
  · injection h1 with hr hdb; subst hr; simp at h2
  · split at h1
    · injection h1 with hr hdb; subst hr; simp at h2
    · split at h1
      · injection h1 with hr hdb; subst hr; simp at h2
      · split at h1
        · injection h1 with hr hdb; subst hr; simp at h2
        · split at h1
          · rename_i heq
            rw [markNonceUsed, if_neg (by simp [h4])] at heq
            exact absurd heq (by simp)
          · rename_i db2 heq
            rw [markNonceUsed, if_neg (by simp [h4])] at heq
            injection heq with h5
            injection h1 with hr hdb
            exact hdb.symm.trans h5.symm

/-- Once the nonce derived from the pair is recorded, verification
short-circuits to signature_already_used before recovery runs. -/
theorem verifySignature_replay_blocked
    (hash : String → String) (recover : String → String → Except String String)
    (allow : List String) (db : NonceDb) (a m s : String)
    (hg : db.getFails = false)
    (hc : db.nonces.any (fun p => p.1 == generateNonce hash m s) = true) :
    verifySignature hash recover allow db a m s =
      ({ valid := false, reason := some Reason.signature_already_used,
         error := none }, db) := by
  unfold verifySignature
  rw [isNonceUsed, if_neg (by simp [hg]), hc]

/-! ## Claims -/

/-- C5: for every (message, signature) pair that authenticates
successfully (valid result, stores available), a second authentication
attempt with the identical (message, signature) pair — by any claimed
address — is rejected with reason signature_already_used. -/
theorem claim5_replay_rejected
    (hash : String → String) (recover : String → String → Except String String)
    (allow : List String) (db : NonceDb) (a a2 m s : String) (r : VerifyResult)
    (db' : NonceDb)
    (h1 : verifySignature hash recover allow db a m s = (r, db'))
    (h2 : r.valid = true) (h3 : db.getFails = false) (h4 : db.putFails = false) :
    (verifySignature hash recover allow db' a2 m s).1 =
      { valid := false, reason := some Reason.signature_already_used,
        error := none } := by
  have hdb := verifySignature_valid_state hash recover allow db a m s r db' h1 h2 h4
  subst hdb
  rw [verifySignature_replay_blocked hash recover allow
    { db with nonces := (generateNonce hash m s, jsToLower a) :: db.nonces }
    a2 m s (by simpa using h3) (by simp)]

/-- Witness for C5 at a concrete successful authentication. -/
theorem claim5_replay_rejected_witness :
    (verifySignature (fun x => x) (fun _ _ => Except.ok "0xAB") ["0xab"]
      ⟨[("m:s", "0xab")], false, false⟩ "0xab" "m" "s").1 =
      { valid := false, reason := some Reason.signature_already_used,
        error := none } :=
  claim5_replay_rejected (fun x => x) (fun _ _ => Except.ok "0xAB") ["0xab"]
    ⟨[], false, false⟩ "0xab" "0xab" "m" "s"
    { valid := true, reason := none, error := none }
    ⟨[("m:s", "0xab")], false, false⟩ (by decide) rfl rfl rfl

/-- C6: every rejected authentication attempt leaves the nonce store
unchanged — the nonce write happens only after signature validity,
address match and allowlist membership have all succeeded. -/
theorem claim6_rejection_never_writes_nonce
    (hash : String → String) (recover : String → String → Except String String)
    (allow : List String) (db : NonceDb) (a m s : String) (r : VerifyResult)
    (db' : NonceDb)
    (h1 : verifySignature hash recover allow db a m s = (r, db'))
    (h2 : r.valid = false) :
    db' = db := by
  unfold verifySignature at h1
  split at h1
  · injection h1 with hr hdb; exact hdb.symm
  · injection h1 with hr hdb; exact hdb.symm
  · split at h1
    · injection h1 with hr hdb; exact hdb.symm
    · split at h1
      · injection h1 with hr hdb; exact hdb.symm
      · split at h1
        · injection h1 with hr hdb; exact hdb.symm
        · split at h1
          · injection h1 with hr hdb; subst hr; simp at h2
          · injection h1 with hr hdb; subst hr; simp at h2

/-- Witness for C6 at a concrete rejected attempt (allowlist miss). -/
theorem claim6_rejection_never_writes_nonce_witness :
    (verifySignature (fun x => x) (fun _ _ => Except.ok "0xDEAD") []
      ⟨[], false, false⟩ "0xdead" "m" "s").2 = ⟨[], false, false⟩ :=
  claim6_rejection_never_writes_nonce (fun x => x) (fun _ _ => Except.ok "0xDEAD") []
    ⟨[], false, false⟩ "0xdead" "m" "s"
    (verifySignature (fun x => x) (fun _ _ => Except.ok "0xDEAD") []
      ⟨[], false, false⟩ "0xdead" "m" "s").1
    (verifySignature (fun x => x) (fun _ _ => Except.ok "0xDEAD") []
      ⟨[], false, false⟩ "0xdead" "m" "s").2
    rfl (by decide)

/-- C7: when signature verification, address match and allowlist
membership all succeed but the nonce-store write fails, the attempt is
still valid, the auth endpoint issues a token and answers 200, and the
nonce store is left unchanged. -/
theorem claim7_nonce_write_failure_still_succeeds
    (hash : String → String) (recover : String → String → Except String String)
    (allow : List String) (ndb : NonceDb) (tdb : TokenDb) (b64 : String → String)
    (now : Int) (rand a m s rec : String)
    (h1 : ndb.getFails = false)
    (h2 : ndb.nonces.any (fun p => p.1 == generateNonce hash m s) = false)
    (h3 : recover m s = Except.ok rec)
    (h4 : jsToLower rec = jsToLower a)
    (h5 : jsToLower a ∈ allow)
    (h6 : ndb.putFails = true)
    (h7 : tdb.putFails = false) :
    verifySignature hash recover allow ndb a m s =
      ({ valid := true, reason := none, error := none }, ndb) ∧
    authCore hash recover allow ndb tdb b64 now rand a m s =
      ({ statusCode := 200,
         body := RespBody.authOk (b64 (a ++ ":" ++ toString now ++ ":" ++ rand)) a },
       ndb,
       { tdb with tokens := (b64 (a ++ ":" ++ toString now ++ ":" ++ rand),
           { address := jsToLower a, timestamp := now }) :: tdb.tokens }) := by
  have hv : verifySignature hash recover allow ndb a m s =
      ({ valid := true, reason := none, error := none }, ndb) := by
    simp [verifySignature, isNonceUsed, markNonceUsed, h1, h2, h3, h4, h5, h6]
  refine ⟨hv, ?_⟩
  simp [authCore, hv, generateToken, h7]

/-- Witness for C7 at a concrete input with a failing nonce put. -/
theorem claim7_nonce_write_failure_still_succeeds_witness :
    verifySignature (fun x => x) (fun _ _ => Except.ok "0xAB") ["0xab"]
      ⟨[], false, true⟩ "0xab" "m" "s" =
      ({ valid := true, reason := none, error := none }, ⟨[], false, true⟩) ∧
    authCore (fun x => x) (fun _ _ => Except.ok "0xAB") ["0xab"]
      ⟨[], false, true⟩ ⟨[], false, false, false⟩ (fun x => x) 0 "r" "0xab" "m" "s" =
      ({ statusCode := 200, body := RespBody.authOk "0xab:0:r" "0xab" },
       ⟨[], false, true⟩,
       ⟨[("0xab:0:r", { address := "0xab", timestamp := 0 })], false, false, false⟩) :=
  claim7_nonce_write_failure_still_succeeds (fun x => x) (fun _ _ => Except.ok "0xAB")
    ["0xab"] ⟨[], false, true⟩ ⟨[], false, false, false⟩ (fun x => x) 0 "r"
    "0xab" "m" "s" "0xAB" rfl rfl rfl (by decide) (by decide) rfl rfl

/-- The recovery outcomes the amended C2 is about: recovery throws, or
it returns an address that does not case-insensitively equal the claimed
address. -/
def badRecovery (recover : String → String → Except String String)
    (a m s : String) : Bool :=
  match recover m s with
  | Except.error _ => true
  | Except.ok rec => decide (jsToLower rec ≠ jsToLower a)

/-- The reason the amended C2 predicts for each bad recovery outcome:
verification_error when recovery throws (the outer catch takes it),
invalid_signature when the recovered address mismatches. -/
def recoveryFailureReason (recover : String → String → Except String String)
    (m s : String) : Reason :=
  match recover m s with
  | Except.error _ => Reason.verification_error
  | Except.ok _ => Reason.invalid_signature

/-- C2 counterexample: at a concrete input where recovery throws, the
attempt is rejected with reason verification_error, which is not the
invalid_signature reason the claim requires. -/
theorem claim2_counterexample :
    (verifySignature (fun x => x)
        (fun _ _ => (Except.error "thrown" : Except String String)) ["0xab"]
        ⟨[], false, false⟩ "0xab" "m" "s").1 =
      { valid := false, reason := some Reason.verification_error,
        error := some "thrown" } ∧
    Reason.verification_error ≠ Reason.invalid_signature := by
  constructor
  · rfl
  · decide

/-- C2 amended: on a fresh nonce with a reachable store, a throwing
recovery is rejected with verification_error and a case-insensitive
address mismatch is rejected with invalid_signature; in both cases the
attempt is invalid. -/
theorem claim2_amended_recovery_failures
    (hash : String → String) (recover : String → String → Except String String)
    (allow : List String) (db : NonceDb) (a m s : String)
    (h1 : db.getFails = false)
    (h2 : db.nonces.any (fun p => p.1 == generateNonce hash m s) = false)
    (h3 : badRecovery recover a m s = true) :
    (verifySignature hash recover allow db a m s).1.valid = false ∧
    (verifySignature hash recover allow db a m s).1.reason =
      some (recoveryFailureReason recover m s) := by
  rcases hrec : recover m s with e | rec
  · constructor <;>
      simp [verifySignature, isNonceUsed, recoveryFailureReason, h1, h2, hrec]
  · rw [badRecovery, hrec] at h3
    have h4 : jsToLower rec ≠ jsToLower a := by simpa using h3
    constructor <;>
      simp [verifySignature, isNonceUsed, recoveryFailureReason, h1, h2, hrec, h4]

/-- Witness for the amended C2 at a concrete mismatching recovery. -/
theorem claim2_amended_recovery_failures_witness :
    (verifySignature (fun x => x) (fun _ _ => Except.ok "0xOTHER") ["0xab"]
        ⟨[], false, false⟩ "0xab" "m" "s").1.valid = false ∧
    (verifySignature (fun x => x) (fun _ _ => Except.ok "0xOTHER") ["0xab"]
        ⟨[], false, false⟩ "0xab" "m" "s").1.reason =
      some (recoveryFailureReason (fun _ _ => Except.ok "0xOTHER") "m" "s") :=
  claim2_amended_recovery_failures (fun x => x) (fun _ _ => Except.ok "0xOTHER")
    ["0xab"] ⟨[], false, false⟩ "0xab" "m" "s" rfl rfl (by decide)

/-- C9: nonce derivation is not injective on (message, signature) pairs:
the distinct pairs (m ++ ":" ++ s, t) and (m, s ++ ":" ++ t) hash the
same joined string and yield the identical nonce, so a successful
authentication with the first pair blocks a first-time authentication
with the second pair as signature_already_used. -/
theorem claim9_nonce_collision_blocks_other_pair
    (hash : String → String) (recover : String → String → Except String String)
    (allow : List String) (db : NonceDb) (a a2 m s t : String) (r : VerifyResult)
    (db' : NonceDb)
    (h1 : verifySignature hash recover allow db a (m ++ ":" ++ s) t = (r, db'))
    (h2 : r.valid = true) (h3 : db.getFails = false) (h4 : db.putFails = false) :
    generateNonce hash (m ++ ":" ++ s) t = generateNonce hash m (s ++ ":" ++ t) ∧
    (m ++ ":" ++ s, t) ≠ (m, s ++ ":" ++ t) ∧
    (verifySignature hash recover allow db' a2 m (s ++ ":" ++ t)).1 =
      { valid := false, reason := some Reason.signature_already_used,
        error := none } := by
  have hn : generateNonce hash (m ++ ":" ++ s) t =
      generateNonce hash m (s ++ ":" ++ t) := by
    unfold generateNonce
    simp [String.append_assoc]
  refine ⟨hn, ?_, ?_⟩
  · intro h
    have hfst : m ++ ":" ++ s = m := congrArg Prod.fst h
    have hlen := congrArg String.length hfst
    rw [String.length_append, String.length_append] at hlen
    have hone : (":" : String).length = 1 := rfl
    rw [hone] at hlen
    omega
  · have hdb := verifySignature_valid_state hash recover allow db a
      (m ++ ":" ++ s) t r db' h1 h2 h4
    subst hdb
    rw [verifySignature_replay_blocked hash recover allow
      { db with nonces :=
          (generateNonce hash (m ++ ":" ++ s) t, jsToLower a) :: db.nonces }
      a2 m (s ++ ":" ++ t) (by simpa using h3) (by simp [hn])]

/-- Witness for C9 at a concrete successful first authentication. -/
theorem claim9_nonce_collision_blocks_other_pair_witness :
    generateNonce (fun x => x) ("m" ++ ":" ++ "s") "t" =
      generateNonce (fun x => x) "m" ("s" ++ ":" ++ "t") ∧
    (("m" ++ ":" ++ "s", "t") : String × String) ≠ ("m", "s" ++ ":" ++ "t") ∧
    (verifySignature (fun x => x) (fun _ _ => Except.ok "0xAB") ["0xab"]
      ⟨[("m:s:t", "0xab")], false, false⟩ "0xab" "m" ("s" ++ ":" ++ "t")).1 =
      { valid := false, reason := some Reason.signature_already_used,
        error := none } :=
  claim9_nonce_collision_blocks_other_pair (fun x => x)
    (fun _ _ => Except.ok "0xAB") ["0xab"] ⟨[], false, false⟩
    "0xab" "0xab" "m" "s" "t"
    { valid := true, reason := none, error := none }
    ⟨[("m:s:t", "0xab")], false, false⟩ (by decide) rfl rfl rfl

/-- The TokenStore.validate behaviour the claim describes, written from
the spec words for comparison with verifyToken: a missing record gives
none, a record older than 24 hours is deleted and gives none, and
otherwise the address bound in the stored record is returned. -/
def verifyTokenClaimed (db : TokenDb) (now : Int) (token : String) :
    Option String × TokenDb :=
  match lookupToken db.tokens token with
  | none => (none, db)
  | some item =>
    if now - item.timestamp > 86400000 then
      (none, { db with tokens := removeToken db.tokens token })
    else (some (jsToLower item.address), db)

/-- C8: with the store reachable, verifyToken behaves exactly as the
claim describes: missing record gives none, a record older than 24 hours
is deleted lazily and gives none, and otherwise the address bound in the
stored record (case-normalized) is returned — never an address decoded
from the token string. -/
theorem claim8_token_validate_behaviour
    (db : TokenDb) (now : Int) (token : String)
    (h1 : db.getFails = false) (h2 : db.delFails = false) :
    verifyToken db now token = verifyTokenClaimed db now token := by
  unfold verifyToken verifyTokenClaimed
  cases hl : lookupToken db.tokens token with
  | none => simp [h1]
  | some item =>
    by_cases he : now - item.timestamp > 86400000
    · simp [h1, h2, he]
    · simp [h1, he]

/-- Witness for C8 on a concrete store holding an expired record. -/
theorem claim8_token_validate_behaviour_witness :
    verifyToken ⟨[("tok", { address := "0xAB", timestamp := 0 })], false, false, false⟩
        100000000 "tok" =
      verifyTokenClaimed
        ⟨[("tok", { address := "0xAB", timestamp := 0 })], false, false, false⟩
        100000000 "tok" :=
  claim8_token_validate_behaviour
    ⟨[("tok", { address := "0xAB", timestamp := 0 })], false, false, false⟩
    100000000 "tok" rfl rfl

/-- True when the stored record under the token exists and is expired,
so that the lazy-expiry delete runs. -/
def expiredHit (db : TokenDb) (now : Int) (token : String) : Bool :=
  match lookupToken db.tokens token with
  | some item => decide (now - item.timestamp > 86400000)
  | none => false

/-- C10: token validation fails closed — if the store errors during the
lookup or during the lazy-expiry delete, verifyToken returns none with
the store unchanged and the protected request is answered with the
uniform 401 unauthorized response (not a 500), while the nonce check in
verifySignature turns a store error into the verification_error abort. -/
theorem claim10_token_store_failure_fails_closed
    (tdb : TokenDb) (now : Int) (token : String) (authHeader : Option String)
    (ndb : NonceDb) (hash : String → String)
    (recover : String → String → Except String String) (allow : List String)
    (a m s : String)
    (h1 : tdb.getFails = true ∨ (tdb.delFails = true ∧ expiredHit tdb now token = true))
    (h2 : getAuthFromRequest authHeader = some token)
    (h3 : ndb.getFails = true) :
    verifyToken tdb now token = (none, tdb) ∧
    (protectedGate tdb now authHeader).1 =
      some { statusCode := 401,
             body := RespBody.errMsg "Unauthorized. Please connect your wallet." } ∧
    (verifySignature hash recover allow ndb a m s).1 =
      { valid := false, reason := some Reason.verification_error,
        error := some "Database error: DynamoDB error checking nonce" } := by
  have hv : verifyToken tdb now token = (none, tdb) := by
    rcases h1 with hg | ⟨hd, he⟩
    · simp [verifyToken, hg]
    · unfold verifyToken
      by_cases hg : tdb.getFails = true
      · simp [hg]
      · unfold expiredHit at he
        cases hl : lookupToken tdb.tokens token with
        | none => rw [hl] at he; simp at he
        | some item =>
          rw [hl] at he
          simp only [decide_eq_true_eq] at he
          simp [hg, he, hd]
  refine ⟨hv, ?_, ?_⟩
  · simp [protectedGate, isAuthenticated, h2, hv]
  · simp [verifySignature, isNonceUsed, h3]

/-- Witness for C10 at a concrete store whose get operation fails. -/
theorem claim10_token_store_failure_fails_closed_witness :
    verifyToken ⟨[], true, false, false⟩ 0 "tok" = (none, ⟨[], true, false, false⟩) ∧
    (protectedGate ⟨[], true, false, false⟩ 0 (some "Bearer tok")).1 =
      some { statusCode := 401,
             body := RespBody.errMsg "Unauthorized. Please connect your wallet." } ∧
    (verifySignature (fun x => x) (fun _ _ => Except.ok "0xAB") ["0xab"]
        ⟨[], true, false⟩ "0xab" "m" "s").1 =
      { valid := false, reason := some Reason.verification_error,
        error := some "Database error: DynamoDB error checking nonce" } :=
  claim10_token_store_failure_fails_closed ⟨[], true, false, false⟩ 0 "tok"
    (some "Bearer tok") ⟨[], true, false⟩ (fun x => x)
    (fun _ _ => Except.ok "0xAB") ["0xab"] "0xab" "m" "s"
    (Or.inl rfl) (by decide) rfl

/-- C1 evaluation: a stored campaign that started one day ago with
status active, updated with a body submitting only status paused, is
rejected with the invalid-transition error instead of having the status
applied — the strict comparisons treat each omitted field (undefined) as
differing from the stored value, so a status-only body never succeeds. -/
theorem claim1_status_only_update_rejected_eval :
    updateCampaign
      (fun v => match v with | JVal.num n => n | JVal.str _ => none)
      (fun v =>
        if v = JVal.str "2024-01-01" then some 0
        else if v = JVal.str "2024-12-31" then some 31449600000 else none)
      86400000 "c1"
      { id := none, token_address := none, total_amount := none,
        start_date := none, end_date := none, status := some "paused" }
      [{ id := "c1", token_address := JVal.str "0xabc", total_amount := some 100,
         start_date := JVal.str "2024-01-01", end_date := JVal.str "2024-12-31",
         status := "active" }] =
    UpdateResult.err
      "Cannot change campaign fields for active campaigns. Only status can be changed." := by
  decide

/-- C3 evaluation: a total_amount that does not parse to a number (NaN)
passes validation because NaN compared less-or-equal 0 is false, so the
record is accepted and stored with a NaN total_amount instead of being
rejected. -/
theorem claim3_nan_total_amount_accepted_eval :
    (fun v => match v with | JVal.num n => n | JVal.str _ => none)
        (JVal.str "abc") = none ∧
    validateCampaign
      (fun v => match v with | JVal.num n => n | JVal.str _ => none)
      (fun v =>
        if v = JVal.str "2099-01-01" then some 0
        else if v = JVal.str "2099-01-31" then some 2592000000 else none)
      { id := some "c1", token_address := some (JVal.str "0xabc"),
        total_amount := some (JVal.str "abc"),
        start_date := some (JVal.str "2099-01-01"),
        end_date := some (JVal.str "2099-01-31"), status := none } =
    Except.ok { id := "c1", token_address := JVal.str "0xabc",
                total_amount := none, start_date := JVal.str "2099-01-01",
                end_date := JVal.str "2099-01-31", status := "active" } := by
  constructor
  · rfl
  · rfl

/-- C4 counterexample: createCampaign accepts and stores a campaign whose
submitted status is the string bogus, outside the set of the three legal
statuses — no operation validates status membership on create. -/
theorem claim4_counterexample :
    createCampaign
      (fun v => match v with | JVal.num n => n | JVal.str _ => none)
      (fun v =>
        if v = JVal.str "2099-01-01" then some 0
        else if v = JVal.str "2099-01-31" then some 2592000000 else none)
      { id := some "c1", token_address := some (JVal.str "0xabc"),
        total_amount := some (JVal.num (some 100)),
        start_date := some (JVal.str "2099-01-01"),
        end_date := some (JVal.str "2099-01-31"), status := some "bogus" } [] =
    Except.ok ({ id := "c1", token_address := JVal.str "0xabc",
                 total_amount := some 100, start_date := JVal.str "2099-01-01",
                 end_date := JVal.str "2099-01-31", status := "bogus" },
               [{ id := "c1", token_address := JVal.str "0xabc",
                  total_amount := some 100, start_date := JVal.str "2099-01-01",
                  end_date := JVal.str "2099-01-31", status := "bogus" }]) ∧
    ("bogus" : String) ∉ (["active", "paused", "completed"] : List String) := by
  constructor
  · rfl
  · decide

/-- C4 amended: the status-only mutation path does enforce membership —
when the stored campaign has started and is not completed, any record a
successful update stores has one of the three legal statuses.  (Create
and the pre-start full edit store the submitted status unchecked, as the
counterexample shows.) -/
theorem claim4_amended_active_path_status_membership
    (pf : JVal → Option Rat) (pd : JVal → Option Int) (now : Int)
    (data : CampaignBody) (ex : Campaign) (c : Campaign)
    (h1 : startedB pd now ex.start_date = true)
    (h2 : ex.status ≠ "completed")
    (h3 : updateOne pf pd now data ex = Except.ok c) :
    c.status = "active" ∨ c.status = "paused" ∨ c.status = "completed" := by
  unfold updateOne at h3
  rw [if_pos (And.intro h1 h2)] at h3
  split at h3
  · split at h3
    · split at h3
      · exact absurd h3 (by simp)
      · rename_i hset hoc
        injection h3 with hc
        subst hc
        simpa using hset
    · exact absurd h3 (by simp)
  · exact absurd h3 (by simp)

/-- Witness for the amended C4 at a concrete status-only update. -/
theorem claim4_amended_active_path_status_membership_witness :
    ("paused" : String) = "active" ∨ ("paused" : String) = "paused" ∨
      ("paused" : String) = "completed" :=
  claim4_amended_active_path_status_membership
    (fun v => match v with | JVal.num n => n | JVal.str _ => none)
    (fun v => if v = JVal.str "2024-01-01" then some 0 else none) 0
    { id := none, token_address := some (JVal.str "0xabc"),
      total_amount := some (JVal.num (some 100)),
      start_date := some (JVal.str "2024-01-01"),
      end_date := some (JVal.str "2024-12-31"), status := some "paused" }
    { id := "c1", token_address := JVal.str "0xabc", total_amount := some 100,
      start_date := JVal.str "2024-01-01", end_date := JVal.str "2024-12-31",
      status := "active" }
    { id := "c1", token_address := JVal.str "0xabc", total_amount := some 100,
      start_date := JVal.str "2024-01-01", end_date := JVal.str "2024-12-31",
      status := "paused" }
    (by decide) (by decide) rfl
